import Mathlib

/-!
Shallow embedding of `src/main.c` (humidity and temperature alarm firmware).

Machine integers: every global in the C source relevant here is `int8_t`
(or a K&R-style implicit `int` parameter that only ever receives `int8_t`
values); C integer promotion performs all arithmetic in `int`, and every
value stored back is produced by an `if`-guarded assignment of a value that
is itself in `int8_t` range whenever the inputs are.  We therefore model
all of them as `Int`; theorems that need the machine range state it as an
explicit hypothesis.

The `NULL` sentinel for an unset limit (`#define TEMP_LIMIT_MIN 20`, docs:
"Leave 'NULL' for no limit") compiles to the integer `0`, so the C guard
`TEMP_LIMIT_MAX != NULL` is modelled as `temp_max ≠ 0`.
-/

set_option autoImplicit false

namespace TempHumAlarm

/-- The four user-configuration constants `TEMP_LIMIT_MIN`, `TEMP_LIMIT_MAX`,
`HUM_LIMIT_MIN`, `HUM_LIMIT_MAX`; the value `0` plays the role of the
`NULL` "no limit" sentinel. -/
structure Limits where
  temp_min : Int
  temp_max : Int
  hum_min : Int
  hum_max : Int
deriving DecidableEq, Repr

/-- The configuration the shipped source builds with
(`TEMP_LIMIT_MIN 20`, `TEMP_LIMIT_MAX 30`, `HUM_LIMIT_MIN 20`,
`HUM_LIMIT_MAX 50`). -/
def userLimits : Limits := ⟨20, 30, 20, 50⟩

/-- The startup assertion in `main`:
`TEMP_LIMIT_MIN > TEMP_LIMIT_MAX || HUM_LIMIT_MIN > HUM_LIMIT_MAX`. -/
def Limits.configError (L : Limits) : Bool :=
  L.temp_min > L.temp_max || L.hum_min > L.hum_max

/-- The global mutable variables of `main.c` that the claims are about. -/
structure SysState where
  temp_exceeded_dir : Int
  hum_exceeded_dir : Int
  current_animation : Int
  last_animation_done : Int
  test_frequency : Int
  display_step : Int
  temperature_max : Int
  temperature_min : Int
  temperature_previous : Int
  humidity_max : Int
  humidity_min : Int
  humidity_previous : Int
  temperature : Int
  humidity : Int
deriving DecidableEq, Repr

/-- The initial values of the globals, as declared in `main.c`
(lines 58-76). -/
def initState : SysState :=
  { temp_exceeded_dir := 0
    hum_exceeded_dir := 0
    current_animation := 1
    last_animation_done := 1
    test_frequency := 0
    display_step := 0
    temperature_max := 0
    temperature_min := 99
    temperature_previous := 0
    humidity_max := 0
    humidity_min := 99
    humidity_previous := 0
    temperature := 0
    humidity := 0 }

/-- `isNewResultValid` (lines 422-453): validates the current sample in the
globals `temperature`/`humidity` against `temperature_previous`/
`humidity_previous`.  Returns the C return value (`1` as `true`, `0` as
`false`) together with the updated globals. -/
def isNewResultValid (s : SysState) : Bool × SysState :=
  if s.test_frequency < 1 then
    (true, { s with temperature_previous := s.temperature
                    humidity_previous := s.humidity
                    test_frequency := s.test_frequency + 1 })
  else if s.temperature - s.temperature_previous < -5 ∨
          s.temperature - s.temperature_previous > 5 then
    (false, s)
  else if s.humidity - s.humidity_previous < -5 ∨
          s.humidity - s.humidity_previous > 5 then
    (false, s)
  else
    (true, { s with temperature_previous := s.temperature
                    humidity_previous := s.humidity })

/-- `checkStats` lines 366-376: the temperature limit checks, which set
`temp_exceeded_dir` and possibly `current_animation`.  `t` is the
(implicitly `int`) parameter `temperature` of `checkStats`. -/
def applyTempDir (L : Limits) (t : Int) (s : SysState) : SysState :=
  if L.temp_max ≠ 0 ∧ L.temp_max < t then
    { s with temp_exceeded_dir := 1, current_animation := 1 }
  else if L.temp_min ≠ 0 ∧ t < L.temp_min then
    { s with temp_exceeded_dir := -1, current_animation := 1 }
  else
    { s with temp_exceeded_dir := 0 }

/-- `checkStats` lines 378-389: the humidity limit checks. -/
def applyHumDir (L : Limits) (h : Int) (s : SysState) : SysState :=
  if L.hum_max ≠ 0 ∧ L.hum_max < h then
    { s with hum_exceeded_dir := 1, current_animation := 1 }
  else if L.hum_min ≠ 0 ∧ h < L.hum_min then
    { s with hum_exceeded_dir := -1, current_animation := 1 }
  else
    { s with hum_exceeded_dir := 0 }

/-- `checkStats` lines 391-394: reset the animation to CHECK when both
directions are nominal. -/
def applyAnimReset (s : SysState) : SysState :=
  if s.hum_exceeded_dir = 0 ∧ s.temp_exceeded_dir = 0 then
    { s with current_animation := 0 }
  else s

/-- `checkStats` lines 397-413: adjust the stored extremes. -/
def applyExtremes (t h : Int) (s : SysState) : SysState :=
  let s1 := if s.temperature_max < t then { s with temperature_max := t } else s
  let s2 := if s1.temperature_min > t then { s1 with temperature_min := t } else s1
  let s3 := if s2.humidity_max < h then { s2 with humidity_max := h } else s2
  if s3.humidity_min > h then { s3 with humidity_min := h } else s3

/-- `checkStats(temperature, humidity)` (lines 361-415).  First calls
`isNewResultValid()` (which mutates the validator globals); only when it
returns `1` does the body run, in source order: temperature limit checks,
humidity limit checks, animation reset, extremes adjustment. -/
def checkStats (L : Limits) (t h : Int) (s0 : SysState) : SysState :=
  let r := isNewResultValid s0
  if r.fst then
    applyExtremes t h (applyAnimReset (applyHumDir L h (applyTempDir L t r.snd)))
  else r.snd

/-- One LCD rendering call made by the firmware, with the arguments the
call site passes. -/
inductive RenderCall where
  /-- `printWarning(tempOrHum, exceeded_dir)` -/
  | warningCall (tempOrHum : Int) (exceeded_dir : Int)
  /-- `printTempHum_Current(temperature, humidity)` -/
  | currentCall (t : Int) (h : Int)
  /-- `printTemp_History(temperature_max, temperature_min)` -/
  | tempHistCall (mx : Int) (mn : Int)
  /-- `printHum_History(...)` with the two arguments the ISR passes -/
  | humHistCall (a1 : Int) (a2 : Int)
  /-- the `lcd_puts("Config error: ... Limit MIN > MAX")` block in `main` -/
  | configErrorCall
  /-- the `lcd_puts("Input Error: ... Bad sensor data.")` block in `main` -/
  | inputErrorCall
deriving DecidableEq, Repr

/-- The pane-selection `if`/`else if` chain of `ISR(TIMER1_OVF_vect)`
(lines 118-138): which rendering call the tick handler makes, as a
function of the globals before `display_step` is incremented.  `none`
means no branch fires (only possible outside `display_step ∈ 0..4`). -/
def tickRender (s : SysState) : Option RenderCall :=
  if s.display_step = 0 ∧ (s.temp_exceeded_dir = 1 ∨ s.temp_exceeded_dir = -1) then
    some (.warningCall 0 s.temp_exceeded_dir)
  else if s.display_step = 1 ∧ (s.hum_exceeded_dir = 1 ∨ s.hum_exceeded_dir = -1) then
    some (.warningCall 1 s.hum_exceeded_dir)
  else if s.display_step ≤ 2 then
    some (.currentCall s.temperature s.humidity)
  else if s.display_step = 3 then
    some (.tempHistCall s.temperature_max s.temperature_min)
  else if s.display_step = 4 then
    some (.humHistCall s.humidity s.humidity_min)
  else none

/-- The state change performed by one run of `ISR(TIMER1_OVF_vect)`
(lines 140-144 advance `display_step` and wrap it past 4;
`last_animation_done` is set to `0` and back to `1` within the same
handler run, lines 147-162, so its net value is unchanged; no other
global is written by the handler). -/
def tickState (s : SysState) : SysState :=
  let step1 := s.display_step + 1
  let step2 := if step1 > 4 then 0 else step1
  { s with display_step := step2 }

/-- The three 8x8 bitmaps `LEDMATRIX_CHECK`, `LEDMATRIX_WARNING`,
`LEDMATRIX_HEART`. -/
inductive Anim where
  | check
  | warning
  | heart
deriving DecidableEq, Repr

/-- The animation dispatch of the tick handler (lines 147-162): when
`last_animation_done == 1`, animate the bitmap selected by
`current_animation` (`0` → CHECK, `1` → WARNING, anything else → HEART,
"When in doubt, share some love"); otherwise no animation starts. -/
def tickAnim (s : SysState) : Option Anim :=
  if s.last_animation_done = 1 then
    some (if s.current_animation = 0 then Anim.check
          else if s.current_animation = 1 then Anim.warning
          else Anim.heart)
  else none

/-- What `printWarning` (lines 310-352) writes to the LCD. -/
inductive WarnOut where
  /-- "HIGH ..." / "Over <lim>..." with the configured upper limit -/
  | over (tempOrHum : Int) (lim : Int)
  /-- "LOW ..." / "Under <lim>..." with the configured lower limit -/
  | under (tempOrHum : Int) (lim : Int)
  /-- `exceeded_dir` outside `{1, -1}`: `lcd_puts(str)` prints the local
  buffer `str` even though no `sprintf` ever wrote to it -/
  | unsetBuffer (tempOrHum : Int)
  /-- `tempOrHum` outside `{0, 1}`: neither branch runs, nothing printed -/
  | noOutput
deriving DecidableEq, Repr

/-- `printWarning(tempOrHum, exceeded_dir)` (lines 310-352), abstracted to
the content it writes.  The limit printed comes from the configuration
constants. -/
def printWarning (L : Limits) (tempOrHum exceeded_dir : Int) : WarnOut :=
  if tempOrHum = 0 then
    if exceeded_dir = 1 then WarnOut.over 0 L.temp_max
    else if exceeded_dir = -1 then WarnOut.under 0 L.temp_min
    else WarnOut.unsetBuffer 0
  else if tempOrHum = 1 then
    if exceeded_dir = 1 then WarnOut.over 1 L.hum_max
    else if exceeded_dir = -1 then WarnOut.under 1 L.hum_min
    else WarnOut.unsetBuffer 1
  else WarnOut.noOutput

/-- `WarnOut` values that print the `str` buffer no `sprintf` ever wrote. -/
def WarnOut.isUninit : WarnOut → Bool
  | .unsetBuffer _ => true
  | _ => false

/-- Result of one `dht_gettemperaturehumidity(&temperature, &humidity)`
call: success delivers a temperature and humidity sample, failure is the
`-1` return. -/
inductive SensorResult where
  | ok (t h : Int)
  | fail
deriving DecidableEq, Repr

/-- One iteration of the foreground `while(1)` loop of `main`
(lines 495-505): on a successful read the sample is stored in the globals
and `checkStats(temperature, humidity)` runs; on a failed read the
"Input Error" pane is written and `current_animation = 1` is set. -/
def foregroundStep (L : Limits) (s : SysState) :
    SensorResult → SysState × Option RenderCall
  | .ok t h =>
      (checkStats L t h { s with temperature := t, humidity := h }, none)
  | .fail =>
      ({ s with current_animation := 1 }, some .inputErrorCall)

/-- Which of the two `main` branches the startup config assertion
(line 488) selects: `halted` is the `while(1){}` of the config-error
branch, `running` the sensor-polling loop. -/
inductive Mode where
  | running
  | halted
deriving DecidableEq, Repr

/-- The mode `main` enters after the startup assertion. -/
def initMode (L : Limits) : Mode :=
  if L.configError then Mode.halted else Mode.running

/-- The globals at the moment `main` enters its final loop: the
config-error branch additionally sets `current_animation = 1`
(line 492). -/
def initStateOf (L : Limits) : SysState :=
  if L.configError then { initState with current_animation := 1 } else initState

/-- What `main` writes to the LCD before entering its final loop: the
config-error branch renders the "Config error" pane (lines 489-491). -/
def initRender (L : Limits) : Option RenderCall :=
  if L.configError then some RenderCall.configErrorCall else none

/-- Events that can advance the system once `main` has reached its final
loop.  `sei()` runs before the startup assertion (line 483), so timer
ticks occur in both modes; a sensor read only happens inside the
`running` loop's body. -/
inductive Label where
  | tick
  | sensorRead (r : SensorResult)

/-- One transition of the whole system.  A `tick` runs the interrupt
handler in either mode; a `sensorRead` is only possible in `running` mode
(the halted `while(1){}` never calls the sensor), hence `none` there. -/
def stepM (L : Limits) : Mode × SysState → Label → Option (Mode × SysState)
  | (m, s), .tick => some (m, tickState s)
  | (.running, s), .sensorRead r => some (.running, (foregroundStep L s r).fst)
  | (.halted, _), .sensorRead _ => none

/-- Reachable system configurations: the state `main` enters its final
loop with, closed under `stepM` transitions. -/
inductive ReachableM (L : Limits) : Mode × SysState → Prop where
  | init : ReachableM L (initMode L, initStateOf L)
  | step : ∀ ms l ms', ReachableM L ms → stepM L ms l = some ms' → ReachableM L ms'

/-- Direction classifier written from the spec's words (§4.2): "if an
upper bound is configured and the value strictly exceeds it, direction =
Over; else if a lower bound is configured and the value is strictly below
it, direction = Under; else direction = Nominal", with `Over = 1`,
`Under = -1`, `Nominal = 0` and "configured" meaning "not the `NULL`
sentinel".  Used only to compare the code's classification against the
spec. -/
def directionSpec (lower upper v : Int) : Int :=
  if upper ≠ 0 ∧ upper < v then 1
  else if lower ≠ 0 ∧ v < lower then -1
  else 0

/-! ## Frame lemmas: which fields each code fragment leaves untouched -/

theorem isNewResultValid_snd_frame (s : SysState) :
    (isNewResultValid s).snd.temp_exceeded_dir = s.temp_exceeded_dir ∧
    (isNewResultValid s).snd.hum_exceeded_dir = s.hum_exceeded_dir ∧
    (isNewResultValid s).snd.current_animation = s.current_animation ∧
    (isNewResultValid s).snd.last_animation_done = s.last_animation_done ∧
    (isNewResultValid s).snd.display_step = s.display_step ∧
    (isNewResultValid s).snd.temperature_max = s.temperature_max ∧
    (isNewResultValid s).snd.temperature_min = s.temperature_min ∧
    (isNewResultValid s).snd.humidity_max = s.humidity_max ∧
    (isNewResultValid s).snd.humidity_min = s.humidity_min ∧
    (isNewResultValid s).snd.temperature = s.temperature ∧
    (isNewResultValid s).snd.humidity = s.humidity := by
  simp only [isNewResultValid]
  split_ifs <;> simp

theorem applyTempDir_frame (L : Limits) (t : Int) (s : SysState) :
    (applyTempDir L t s).hum_exceeded_dir = s.hum_exceeded_dir ∧
    (applyTempDir L t s).temperature_max = s.temperature_max ∧
    (applyTempDir L t s).temperature_min = s.temperature_min ∧
    (applyTempDir L t s).humidity_max = s.humidity_max ∧
    (applyTempDir L t s).humidity_min = s.humidity_min ∧
    (applyTempDir L t s).test_frequency = s.test_frequency ∧
    (applyTempDir L t s).temperature_previous = s.temperature_previous ∧
    (applyTempDir L t s).humidity_previous = s.humidity_previous := by
  simp only [applyTempDir]
  split_ifs <;> simp

theorem applyHumDir_frame (L : Limits) (h : Int) (s : SysState) :
    (applyHumDir L h s).temp_exceeded_dir = s.temp_exceeded_dir ∧
    (applyHumDir L h s).temperature_max = s.temperature_max ∧
    (applyHumDir L h s).temperature_min = s.temperature_min ∧
    (applyHumDir L h s).humidity_max = s.humidity_max ∧
    (applyHumDir L h s).humidity_min = s.humidity_min ∧
    (applyHumDir L h s).test_frequency = s.test_frequency ∧
    (applyHumDir L h s).temperature_previous = s.temperature_previous ∧
    (applyHumDir L h s).humidity_previous = s.humidity_previous := by
  simp only [applyHumDir]
  split_ifs <;> simp

theorem applyAnimReset_frame (s : SysState) :
    (applyAnimReset s).temp_exceeded_dir = s.temp_exceeded_dir ∧
    (applyAnimReset s).hum_exceeded_dir = s.hum_exceeded_dir ∧
    (applyAnimReset s).temperature_max = s.temperature_max ∧
    (applyAnimReset s).temperature_min = s.temperature_min ∧
    (applyAnimReset s).humidity_max = s.humidity_max ∧
    (applyAnimReset s).humidity_min = s.humidity_min ∧
    (applyAnimReset s).test_frequency = s.test_frequency ∧
    (applyAnimReset s).temperature_previous = s.temperature_previous ∧
    (applyAnimReset s).humidity_previous = s.humidity_previous := by
  simp only [applyAnimReset]
  split_ifs <;> simp

theorem applyExtremes_frame (t h : Int) (s : SysState) :
    (applyExtremes t h s).temp_exceeded_dir = s.temp_exceeded_dir ∧
    (applyExtremes t h s).hum_exceeded_dir = s.hum_exceeded_dir ∧
    (applyExtremes t h s).current_animation = s.current_animation ∧
    (applyExtremes t h s).test_frequency = s.test_frequency ∧
    (applyExtremes t h s).temperature_previous = s.temperature_previous ∧
    (applyExtremes t h s).humidity_previous = s.humidity_previous := by
  simp only [applyExtremes]
  split_ifs <;> simp

theorem tickState_frame (s : SysState) :
    (tickState s).temp_exceeded_dir = s.temp_exceeded_dir ∧
    (tickState s).hum_exceeded_dir = s.hum_exceeded_dir ∧
    (tickState s).current_animation = s.current_animation ∧
    (tickState s).last_animation_done = s.last_animation_done ∧
    (tickState s).test_frequency = s.test_frequency ∧
    (tickState s).temperature_max = s.temperature_max ∧
    (tickState s).temperature_min = s.temperature_min ∧
    (tickState s).temperature_previous = s.temperature_previous ∧
    (tickState s).humidity_max = s.humidity_max ∧
    (tickState s).humidity_min = s.humidity_min ∧
    (tickState s).humidity_previous = s.humidity_previous ∧
    (tickState s).temperature = s.temperature ∧
    (tickState s).humidity = s.humidity :=
  ⟨rfl, rfl, rfl, rfl, rfl, rfl, rfl, rfl, rfl, rfl, rfl, rfl, rfl⟩

/-! ## Characterization lemmas -/

theorem isNewResultValid_fst_first (s : SysState) (h : s.test_frequency < 1) :
    (isNewResultValid s).fst = true := by
  simp [isNewResultValid, h]

theorem isNewResultValid_fst_later (s : SysState) (h : ¬ s.test_frequency < 1) :
    ((isNewResultValid s).fst = true ↔
      |s.temperature - s.temperature_previous| ≤ 5 ∧
      |s.humidity - s.humidity_previous| ≤ 5) := by
  simp only [isNewResultValid, if_neg h, abs_le]
  split_ifs <;> simp <;> omega

theorem isNewResultValid_snd_of_invalid (s : SysState)
    (hv : (isNewResultValid s).fst = false) : (isNewResultValid s).snd = s := by
  simp only [isNewResultValid] at hv ⊢
  split_ifs at hv ⊢ <;> simp_all

theorem isNewResultValid_snd_of_valid (s : SysState)
    (hv : (isNewResultValid s).fst = true) :
    (isNewResultValid s).snd.temperature_previous = s.temperature ∧
    (isNewResultValid s).snd.humidity_previous = s.humidity := by
  simp only [isNewResultValid] at hv ⊢
  split_ifs at hv ⊢ <;> simp_all

theorem checkStats_of_invalid (L : Limits) (t h : Int) (s : SysState)
    (hv : (isNewResultValid s).fst = false) : checkStats L t h s = s := by
  simp [checkStats, hv, isNewResultValid_snd_of_invalid s hv]

theorem checkStats_of_valid (L : Limits) (t h : Int) (s : SysState)
    (hv : (isNewResultValid s).fst = true) :
    checkStats L t h s =
      applyExtremes t h
        (applyAnimReset (applyHumDir L h (applyTempDir L t (isNewResultValid s).snd))) := by
  simp [checkStats, hv]

theorem applyTempDir_tdir (L : Limits) (t : Int) (s : SysState) :
    (applyTempDir L t s).temp_exceeded_dir = directionSpec L.temp_min L.temp_max t := by
  simp only [applyTempDir, directionSpec]
  split_ifs <;> simp

theorem applyTempDir_anim (L : Limits) (t : Int) (s : SysState) :
    (applyTempDir L t s).current_animation =
      (if directionSpec L.temp_min L.temp_max t = 0 then s.current_animation else 1) := by
  simp only [applyTempDir, directionSpec]
  split_ifs <;> simp_all

theorem applyHumDir_hdir (L : Limits) (h : Int) (s : SysState) :
    (applyHumDir L h s).hum_exceeded_dir = directionSpec L.hum_min L.hum_max h := by
  simp only [applyHumDir, directionSpec]
  split_ifs <;> simp

theorem applyHumDir_anim (L : Limits) (h : Int) (s : SysState) :
    (applyHumDir L h s).current_animation =
      (if directionSpec L.hum_min L.hum_max h = 0 then s.current_animation else 1) := by
  simp only [applyHumDir, directionSpec]
  split_ifs <;> simp_all

theorem applyAnimReset_anim (s : SysState) :
    (applyAnimReset s).current_animation =
      (if s.hum_exceeded_dir = 0 ∧ s.temp_exceeded_dir = 0 then 0
       else s.current_animation) := by
  simp only [applyAnimReset]
  split_ifs <;> simp

theorem applyExtremes_vals (t h : Int) (s : SysState) :
    (applyExtremes t h s).temperature_max = max s.temperature_max t ∧
    (applyExtremes t h s).temperature_min = min s.temperature_min t ∧
    (applyExtremes t h s).humidity_max = max s.humidity_max h ∧
    (applyExtremes t h s).humidity_min = min s.humidity_min h := by
  simp only [applyExtremes]
  split_ifs <;> simp_all <;> omega

theorem directionSpec_range (lower upper v : Int) :
    directionSpec lower upper v = -1 ∨ directionSpec lower upper v = 0 ∨
      directionSpec lower upper v = 1 := by
  simp only [directionSpec]
  split_ifs <;> simp

/-! ## Composed behaviour of `checkStats` on an accepted sample -/

theorem checkStats_valid_tdir (L : Limits) (t h : Int) (s : SysState)
    (hv : (isNewResultValid s).fst = true) :
    (checkStats L t h s).temp_exceeded_dir = directionSpec L.temp_min L.temp_max t := by
  rw [checkStats_of_valid L t h s hv]
  rw [(applyExtremes_frame _ _ _).1, (applyAnimReset_frame _).1,
    (applyHumDir_frame _ _ _).1, applyTempDir_tdir]

theorem checkStats_valid_hdir (L : Limits) (t h : Int) (s : SysState)
    (hv : (isNewResultValid s).fst = true) :
    (checkStats L t h s).hum_exceeded_dir = directionSpec L.hum_min L.hum_max h := by
  rw [checkStats_of_valid L t h s hv]
  rw [(applyExtremes_frame _ _ _).2.1, (applyAnimReset_frame _).2.1, applyHumDir_hdir]

theorem checkStats_valid_anim (L : Limits) (t h : Int) (s : SysState)
    (hv : (isNewResultValid s).fst = true) :
    (checkStats L t h s).current_animation =
      (if directionSpec L.hum_min L.hum_max h = 0 ∧
          directionSpec L.temp_min L.temp_max t = 0
       then 0 else 1) := by
  rw [checkStats_of_valid L t h s hv]
  rw [(applyExtremes_frame _ _ _).2.2.1, applyAnimReset_anim, applyHumDir_hdir,
    (applyHumDir_frame _ _ _).1, applyTempDir_tdir, applyHumDir_anim, applyTempDir_anim]
  split_ifs <;> simp_all

theorem checkStats_valid_extremes (L : Limits) (t h : Int) (s : SysState)
    (hv : (isNewResultValid s).fst = true) :
    (checkStats L t h s).temperature_max = max s.temperature_max t ∧
    (checkStats L t h s).temperature_min = min s.temperature_min t ∧
    (checkStats L t h s).humidity_max = max s.humidity_max h ∧
    (checkStats L t h s).humidity_min = min s.humidity_min h := by
  rw [checkStats_of_valid L t h s hv]
  obtain ⟨e1, e2, e3, e4⟩ := applyExtremes_vals t h
    (applyAnimReset (applyHumDir L h (applyTempDir L t (isNewResultValid s).snd)))
  rw [e1, e2, e3, e4]
  obtain ⟨-, -, a1, a2, a3, a4, -⟩ := applyAnimReset_frame
    (applyHumDir L h (applyTempDir L t (isNewResultValid s).snd))
  rw [a1, a2, a3, a4]
  obtain ⟨-, b1, b2, b3, b4, -⟩ := applyHumDir_frame L h
    (applyTempDir L t (isNewResultValid s).snd)
  rw [b1, b2, b3, b4]
  obtain ⟨-, c1, c2, c3, c4, -⟩ := applyTempDir_frame L t (isNewResultValid s).snd
  rw [c1, c2, c3, c4]
  obtain ⟨-, -, -, -, -, d1, d2, d3, d4, -⟩ := isNewResultValid_snd_frame s
  rw [d1, d2, d3, d4]
  exact ⟨rfl, rfl, rfl, rfl⟩

theorem checkStats_tdir_cases (L : Limits) (t h : Int) (s : SysState) :
    (checkStats L t h s).temp_exceeded_dir = s.temp_exceeded_dir ∨
    (checkStats L t h s).temp_exceeded_dir = directionSpec L.temp_min L.temp_max t := by
  by_cases hv : (isNewResultValid s).fst = true
  · exact Or.inr (checkStats_valid_tdir L t h s hv)
  · rw [checkStats_of_invalid L t h s (Bool.not_eq_true _ ▸ hv)]
    exact Or.inl rfl

theorem checkStats_hdir_cases (L : Limits) (t h : Int) (s : SysState) :
    (checkStats L t h s).hum_exceeded_dir = s.hum_exceeded_dir ∨
    (checkStats L t h s).hum_exceeded_dir = directionSpec L.hum_min L.hum_max h := by
  by_cases hv : (isNewResultValid s).fst = true
  · exact Or.inr (checkStats_valid_hdir L t h s hv)
  · rw [checkStats_of_invalid L t h s (Bool.not_eq_true _ ▸ hv)]
    exact Or.inl rfl

theorem checkStats_anim_cases (L : Limits) (t h : Int) (s : SysState) :
    (checkStats L t h s).current_animation = s.current_animation ∨
    (checkStats L t h s).current_animation = 0 ∨
    (checkStats L t h s).current_animation = 1 := by
  by_cases hv : (isNewResultValid s).fst = true
  · rw [checkStats_valid_anim L t h s hv]
    split_ifs <;> simp
  · rw [checkStats_of_invalid L t h s (Bool.not_eq_true _ ▸ hv)]
    exact Or.inl rfl

theorem checkStats_extremes_mono (L : Limits) (t h : Int) (s : SysState) :
    s.temperature_max ≤ (checkStats L t h s).temperature_max ∧
    (checkStats L t h s).temperature_min ≤ s.temperature_min ∧
    s.humidity_max ≤ (checkStats L t h s).humidity_max ∧
    (checkStats L t h s).humidity_min ≤ s.humidity_min := by
  by_cases hv : (isNewResultValid s).fst = true
  · obtain ⟨e1, e2, e3, e4⟩ := checkStats_valid_extremes L t h s hv
    rw [e1, e2, e3, e4]
    exact ⟨le_max_left _ _, min_le_left _ _, le_max_left _ _, min_le_left _ _⟩
  · rw [checkStats_of_invalid L t h s (Bool.not_eq_true _ ▸ hv)]
    exact ⟨le_refl _, le_refl _, le_refl _, le_refl _⟩

/-! ## Reachability invariants -/

theorem reachable_fst (L : Limits) :
    ∀ ms, ReachableM L ms → ms.fst = initMode L := by
  intro ms hr
  induction hr with
  | init => rfl
  | step ms l ms' hr hstep ih =>
      obtain ⟨m, s⟩ := ms
      cases l with
      | tick =>
          simp only [stepM] at hstep
          cases hstep
          exact ih
      | sensorRead r =>
          cases m with
          | halted => simp [stepM] at hstep
          | running =>
              simp only [stepM] at hstep
              cases hstep
              exact ih

theorem reachable_dir_anim (L : Limits) :
    ∀ ms, ReachableM L ms →
      (ms.snd.temp_exceeded_dir = -1 ∨ ms.snd.temp_exceeded_dir = 0 ∨
        ms.snd.temp_exceeded_dir = 1) ∧
      (ms.snd.hum_exceeded_dir = -1 ∨ ms.snd.hum_exceeded_dir = 0 ∨
        ms.snd.hum_exceeded_dir = 1) ∧
      (ms.snd.current_animation = 0 ∨ ms.snd.current_animation = 1) := by
  intro ms hr
  induction hr with
  | init =>
      simp only [initStateOf]
      split_ifs <;> simp [initState]
  | step ms l ms' hr hstep ih =>
      obtain ⟨m, s⟩ := ms
      cases l with
      | tick =>
          simp only [stepM] at hstep
          cases hstep
          obtain ⟨f1, f2, f3, -⟩ := tickState_frame s
          simp only [f1, f2, f3]
          exact ih
      | sensorRead r =>
          cases m with
          | halted => simp [stepM] at hstep
          | running =>
              simp only [stepM] at hstep
              cases hstep
              cases r with
              | fail => exact ⟨ih.1, ih.2.1, Or.inr rfl⟩
              | ok t h =>
                  simp only [foregroundStep]
                  refine ⟨?_, ?_, ?_⟩
                  · rcases checkStats_tdir_cases L t h
                      { s with temperature := t, humidity := h } with hc | hc
                    · rw [hc]; exact ih.1
                    · rw [hc]; exact directionSpec_range _ _ _
                  · rcases checkStats_hdir_cases L t h
                      { s with temperature := t, humidity := h } with hc | hc
                    · rw [hc]; exact ih.2.1
                    · rw [hc]; exact directionSpec_range _ _ _
                  · rcases checkStats_anim_cases L t h
                      { s with temperature := t, humidity := h } with hc | hc | hc
                    · rw [hc]; exact ih.2.2
                    · rw [hc]; exact Or.inl rfl
                    · rw [hc]; exact Or.inr rfl

/-! ## Tick-handler rendering lemmas -/

theorem tickRender_warning_inv (s : SysState) (a d : Int)
    (hw : tickRender s = some (RenderCall.warningCall a d)) :
    (a = 0 ∧ d = s.temp_exceeded_dir ∧ (d = 1 ∨ d = -1)) ∨
    (a = 1 ∧ d = s.hum_exceeded_dir ∧ (d = 1 ∨ d = -1)) := by
  simp only [tickRender] at hw
  split_ifs at hw with h1 h2 <;> simp_all

theorem printWarning_not_unset (L : Limits) (a d : Int) (hd : d = 1 ∨ d = -1) :
    (printWarning L a d).isUninit = false := by
  rcases hd with rfl | rfl <;>
    (simp only [printWarning]; split_ifs <;> simp [WarnOut.isUninit])

theorem directionSpec_boundary (lower upper v : Int) :
    (v = upper → directionSpec lower upper v ≠ 1) ∧
    (v = lower → directionSpec lower upper v ≠ -1) ∧
    (upper = 0 → directionSpec lower upper v ≠ 1) ∧
    (lower = 0 → directionSpec lower upper v ≠ -1) := by
  simp only [directionSpec]
  refine ⟨?_, ?_, ?_, ?_⟩ <;> intro h <;> split_ifs <;> omega

theorem directionSpec_eq_bound (lower upper v : Int) (hlu : lower ≤ upper)
    (hv : v = upper ∨ v = lower) : directionSpec lower upper v = 0 := by
  simp only [directionSpec]
  rcases hv with rfl | rfl <;> split_ifs <;> omega

/-! ## Claims -/

/-- Claim C1 (code bug): the claim says the step-4 pane shows the running
extremes `humidity_max`/`humidity_min`, and so do the source's own
comments ("Show the highest and lowest known humidity values", line 135)
and the parameter names of `printHum_History`; but line 137 passes the
current sample `humidity` where `humidity_max` belongs.  In a state with
`humidity = 30`, `humidity_max = 50`, `humidity_min = 25` the tick at
step 4 renders `printHum_History(30, 25)`, showing Max 30 instead of the
historic maximum 50. -/
theorem hum_history_pane_shows_current_sample :
    tickRender { initState with display_step := 4, humidity := 30,
                                humidity_max := 50, humidity_min := 25 } =
      some (RenderCall.humHistCall 30 25) ∧
    ({ initState with display_step := 4, humidity := 30,
                      humidity_max := 50, humidity_min := 25 } : SysState).humidity_max
      = 50 ∧
    (30 : Int) ≠ 50 := by
  exact ⟨by decide, rfl, by decide⟩

/-- Claim C2: the validator's first call (`test_frequency < 1`) accepts
every sample; every later call, with the last-accepted pair stored in
`temperature_previous`/`humidity_previous`, accepts iff both deltas have
absolute value at most 5 (so a delta of exactly 5 is accepted and 6 is
rejected); a rejecting call leaves the validator state unchanged, so the
stored pair is always the last accepted sample. -/
theorem validator_bootstrap_and_delta_bound :
    initState.test_frequency = 0 ∧
    ∀ s : SysState,
      (s.test_frequency < 1 → (isNewResultValid s).fst = true) ∧
      (¬ s.test_frequency < 1 →
        ((isNewResultValid s).fst = true ↔
          |s.temperature - s.temperature_previous| ≤ 5 ∧
          |s.humidity - s.humidity_previous| ≤ 5)) ∧
      ((isNewResultValid s).fst = false → (isNewResultValid s).snd = s) :=
  ⟨rfl, fun s => ⟨isNewResultValid_fst_first s, isNewResultValid_fst_later s,
    isNewResultValid_snd_of_invalid s⟩⟩

/-- Witness for C2: the very first call accepts an arbitrary sample; with
`temperature_previous = 0`, a new temperature of 5 (delta exactly 5) is
accepted and 6 (delta 6) is rejected. -/
theorem validator_bootstrap_and_delta_bound_witness :
    (isNewResultValid { initState with temperature := 42, humidity := -77 }).fst
      = true ∧
    (isNewResultValid { initState with test_frequency := 1, temperature := 5 }).fst
      = true ∧
    (isNewResultValid { initState with test_frequency := 1, temperature := 6 }).fst
      = false := by
  refine ⟨(validator_bootstrap_and_delta_bound.2 _).1 (by decide), ?_, ?_⟩
  · exact ((validator_bootstrap_and_delta_bound.2 _).2.1 (by decide)).mpr (by decide)
  · have h := (validator_bootstrap_and_delta_bound.2
      { initState with test_frequency := 1, temperature := 6 }).2.1 (by decide)
    rcases Bool.eq_false_or_eq_true
      (isNewResultValid { initState with test_frequency := 1, temperature := 6 }).fst
      with hf | hf
    · exact absurd (h.mp hf) (by decide)
    · exact hf

/-- Counterexample to C3 as stated: the extremes are seeded
`temperature_max = 0`, `temperature_min = 99` (lines 65-66), so a first
accepted sample of `-1` leaves `temperature_max` at `0`: the first
accepted sample does not establish the maximum bound for every possible
first sample value. -/
theorem first_sample_does_not_always_set_max :
    (isNewResultValid { initState with temperature := -1, humidity := 50 }).fst
      = true ∧
    (checkStats userLimits (-1) 50
      { initState with temperature := -1, humidity := 50 }).temperature_max = 0 ∧
    ((0 : Int) ≠ -1) := by decide

/-- Claim C3 (amended): across `checkStats` the tracked maxima never
decrease and the tracked minima never increase; on every accepted sample
the extremes become `max`/`min` of the old bound and the sample, with no
dependence on the configured limits; and the first accepted sample
establishes both bounds for each attribute provided it lies between the
seeds, i.e. in `[0, 99]`. -/
theorem extremes_monotone_and_seeding (L : Limits) (t h : Int) (s : SysState) :
    (s.temperature_max ≤ (checkStats L t h s).temperature_max ∧
     (checkStats L t h s).temperature_min ≤ s.temperature_min ∧
     s.humidity_max ≤ (checkStats L t h s).humidity_max ∧
     (checkStats L t h s).humidity_min ≤ s.humidity_min) ∧
    ((isNewResultValid s).fst = true →
      ((checkStats L t h s).temperature_max = max s.temperature_max t ∧
       (checkStats L t h s).temperature_min = min s.temperature_min t ∧
       (checkStats L t h s).humidity_max = max s.humidity_max h ∧
       (checkStats L t h s).humidity_min = min s.humidity_min h)) ∧
    (s.test_frequency < 1 → s.temperature_max = 0 → s.temperature_min = 99 →
     s.humidity_max = 0 → s.humidity_min = 99 →
     0 ≤ t → t ≤ 99 → 0 ≤ h → h ≤ 99 →
      ((checkStats L t h s).temperature_max = t ∧
       (checkStats L t h s).temperature_min = t ∧
       (checkStats L t h s).humidity_max = h ∧
       (checkStats L t h s).humidity_min = h)) := by
  refine ⟨checkStats_extremes_mono L t h s, checkStats_valid_extremes L t h s, ?_⟩
  intro h1 h2 h3 h4 h5 ht0 ht99 hh0 hh99
  obtain ⟨e1, e2, e3, e4⟩ :=
    checkStats_valid_extremes L t h s (isNewResultValid_fst_first s h1)
  rw [e1, e2, e3, e4, h2, h3, h4, h5]
  refine ⟨?_, ?_, ?_, ?_⟩ <;> omega

/-- Witness for C3 (amended): the first accepted sample `(25, 40)` sets
all four extremes. -/
theorem extremes_monotone_and_seeding_witness :
    (checkStats userLimits 25 40 initState).temperature_max = 25 ∧
    (checkStats userLimits 25 40 initState).temperature_min = 25 ∧
    (checkStats userLimits 25 40 initState).humidity_max = 40 ∧
    (checkStats userLimits 25 40 initState).humidity_min = 40 :=
  (extremes_monotone_and_seeding userLimits 25 40 initState).2.2 (by decide)
    rfl rfl rfl rfl (by decide) (by decide) (by decide) (by decide)

/-- Counterexample to C4 as stated: a failed sensor read does NOT leave
the AnimationSelector unchanged — line 503 sets `current_animation = 1`
(Warning), here changing it from 0. -/
theorem failed_read_changes_animation_selector :
    (foregroundStep userLimits { initState with current_animation := 0 }
        SensorResult.fail).fst.current_animation = 1 ∧
    ({ initState with current_animation := 0 } : SysState).current_animation = 0 ∧
    ((1 : Int) ≠ 0) := by decide

/-- Claim C4 (amended): on a failed sensor read the foreground loop
signals the input-error pane, sets the AnimationSelector
`current_animation` to 1 (Warning), and changes nothing else: validator
memory, both directions, and all extremes are untouched. -/
theorem failed_read_effect (L : Limits) (s : SysState) :
    foregroundStep L s SensorResult.fail =
      ({ s with current_animation := 1 }, some RenderCall.inputErrorCall) := rfl

/-- Counterexample to C5 as stated: with limits `temp_min = 30 >
temp_max = 20` the config error fires, but `sei()` ran before the check,
so the timer ISR keeps firing inside `while(1){}`: the very first tick
renders the Current Values pane over the configuration-error pane — a
tick-driven display change beyond the initial alarm animation
selection. -/
theorem config_error_tick_still_renders :
    (Limits.mk 30 20 20 50).configError = true ∧
    tickRender (initStateOf (Limits.mk 30 20 20 50)) =
      some (RenderCall.currentCall 0 0) ∧
    some (RenderCall.currentCall 0 0) ≠ initRender (Limits.mk 30 20 20 50) := by
  decide

/-- Claim C5 (amended): if a configured minimum exceeds its maximum,
`main` displays the configuration-error pane, performs the initial alarm
animation selection (`current_animation = 1`, line 492), and enters the
halted branch before any sensor read; the mode stays halted in every
reachable configuration and no sensor-read transition exists in halted
mode, so no sensor polling ever occurs.  (Tick-driven display rendering
continues, since the timer interrupt was enabled before the check — see
the counterexample.) -/
theorem config_error_halts (L : Limits) (hc : L.configError = true) :
    initMode L = Mode.halted ∧
    initRender L = some RenderCall.configErrorCall ∧
    (initStateOf L).current_animation = 1 ∧
    (∀ ms, ReachableM L ms → ms.fst = Mode.halted) ∧
    (∀ s r, stepM L (Mode.halted, s) (Label.sensorRead r) = none) := by
  refine ⟨by simp [initMode, hc], by simp [initRender, hc],
    by simp [initStateOf, hc], ?_, fun s r => rfl⟩
  intro ms hr
  rw [reachable_fst L ms hr]
  simp [initMode, hc]

/-- Witness for C5 (amended) at the concrete bad configuration
`temp_min = 30, temp_max = 20`. -/
theorem config_error_halts_witness :
    initMode ⟨30, 20, 20, 50⟩ = Mode.halted ∧
    initRender ⟨30, 20, 20, 50⟩ = some RenderCall.configErrorCall ∧
    (initStateOf ⟨30, 20, 20, 50⟩).current_animation = 1 ∧
    stepM ⟨30, 20, 20, 50⟩ (Mode.halted, initState)
      (Label.sensorRead SensorResult.fail) = none := by
  obtain ⟨h1, h2, h3, h4, h5⟩ := config_error_halts ⟨30, 20, 20, 50⟩ (by decide)
  exact ⟨h1, h2, h3, h5 initState SensorResult.fail⟩

/-- Claim C6: on every accepted sample `checkStats` classifies each
attribute exactly as the spec's rule written out in `directionSpec`
(upper bound first, strict comparisons), each attribute from its own
value only; a value equal to a configured bound is never classified
past that bound, and an unset (`NULL = 0`) bound never produces the
corresponding direction. -/
theorem limit_evaluator_classification (L : Limits) (t h : Int) (s : SysState)
    (hv : (isNewResultValid s).fst = true) :
    (checkStats L t h s).temp_exceeded_dir = directionSpec L.temp_min L.temp_max t ∧
    (checkStats L t h s).hum_exceeded_dir = directionSpec L.hum_min L.hum_max h ∧
    (L.temp_min ≤ L.temp_max → (t = L.temp_max ∨ t = L.temp_min) →
      (checkStats L t h s).temp_exceeded_dir = 0) ∧
    (L.hum_min ≤ L.hum_max → (h = L.hum_max ∨ h = L.hum_min) →
      (checkStats L t h s).hum_exceeded_dir = 0) ∧
    (L.temp_max = 0 → (checkStats L t h s).temp_exceeded_dir ≠ 1) ∧
    (L.temp_min = 0 → (checkStats L t h s).temp_exceeded_dir ≠ -1) ∧
    (L.hum_max = 0 → (checkStats L t h s).hum_exceeded_dir ≠ 1) ∧
    (L.hum_min = 0 → (checkStats L t h s).hum_exceeded_dir ≠ -1) := by
  have ht := checkStats_valid_tdir L t h s hv
  have hh := checkStats_valid_hdir L t h s hv
  obtain ⟨-, -, b3, b4⟩ := directionSpec_boundary L.temp_min L.temp_max t
  obtain ⟨-, -, c3, c4⟩ := directionSpec_boundary L.hum_min L.hum_max h
  rw [ht, hh]
  exact ⟨rfl, rfl, directionSpec_eq_bound L.temp_min L.temp_max t,
    directionSpec_eq_bound L.hum_min L.hum_max h, b3, b4, c3, c4⟩

/-- Witness for C6: the spec's worked example with limits
`min = 20, max = 30` (values 19/20/30/31) and with the upper bound unset
(value 31 stays Nominal). -/
theorem limit_evaluator_classification_witness :
    (checkStats ⟨20, 30, 20, 50⟩ 19 25 initState).temp_exceeded_dir = -1 ∧
    (checkStats ⟨20, 30, 20, 50⟩ 20 25 initState).temp_exceeded_dir = 0 ∧
    (checkStats ⟨20, 30, 20, 50⟩ 30 25 initState).temp_exceeded_dir = 0 ∧
    (checkStats ⟨20, 30, 20, 50⟩ 31 25 initState).temp_exceeded_dir = 1 ∧
    (checkStats ⟨20, 0, 20, 50⟩ 31 25 initState).temp_exceeded_dir = 0 := by
  refine ⟨?_, ?_, ?_, ?_, ?_⟩ <;>
    exact ((limit_evaluator_classification _ _ 25 initState (by decide)).1).trans
      (by decide)

/-- Claim C7: on every accepted sample the evaluator sets the
AnimationSelector to Warning (`1`) iff either resulting direction is
non-Nominal and to Check (`0`) iff both are Nominal; in every reachable
configuration the tick handler never animates the Heart bitmap; and the
Heart really is the fallback: with an unrecognized selector value and the
guard flag set, the tick handler animates Heart. -/
theorem animation_selection_no_heart (L : Limits) :
    (∀ t h s, (isNewResultValid s).fst = true →
      (((checkStats L t h s).current_animation = 1 ↔
         ¬((checkStats L t h s).temp_exceeded_dir = 0 ∧
           (checkStats L t h s).hum_exceeded_dir = 0)) ∧
       ((checkStats L t h s).current_animation = 0 ↔
         ((checkStats L t h s).temp_exceeded_dir = 0 ∧
          (checkStats L t h s).hum_exceeded_dir = 0)))) ∧
    (∀ m s, ReachableM L (m, s) → tickAnim s ≠ some Anim.heart) ∧
    (∀ s, s.current_animation ≠ 0 → s.current_animation ≠ 1 →
      s.last_animation_done = 1 → tickAnim s = some Anim.heart) := by
  refine ⟨?_, ?_, ?_⟩
  · intro t h s hv
    rw [checkStats_valid_anim L t h s hv, checkStats_valid_tdir L t h s hv,
      checkStats_valid_hdir L t h s hv]
    split_ifs with hc <;> constructor <;> simp_all <;> tauto
  · intro m s hr
    have ha := (reachable_dir_anim L (m, s) hr).2.2
    simp only [Prod.snd] at ha
    simp only [tickAnim]
    split_ifs <;> simp_all
  · intro s h0 h1 hd
    simp [tickAnim, hd, h0, h1]

/-- Witness for C7: an out-of-limits temperature (35) selects Warning;
the initial configuration never animates Heart; selector value 2 (never
produced by the code) falls back to Heart. -/
theorem animation_selection_no_heart_witness :
    ((checkStats userLimits 35 25 initState).current_animation = 1 ↔
      ¬((checkStats userLimits 35 25 initState).temp_exceeded_dir = 0 ∧
        (checkStats userLimits 35 25 initState).hum_exceeded_dir = 0)) ∧
    tickAnim (initStateOf userLimits) ≠ some Anim.heart ∧
    tickAnim { initState with current_animation := 2 } = some Anim.heart := by
  refine ⟨((animation_selection_no_heart userLimits).1 35 25 initState (by decide)).1,
    ?_, ?_⟩
  · exact (animation_selection_no_heart userLimits).2.1 (initMode userLimits)
      (initStateOf userLimits) ReachableM.init
  · exact (animation_selection_no_heart userLimits).2.2 _ (by decide) (by decide) rfl

/-- Claim C8: at step 0 a non-Nominal temperature direction renders the
Temperature Alarm pane; at step 1 a non-Nominal humidity direction
renders the Humidity Alarm pane; with both directions Nominal steps 0
and 1 render Current Values; and step 2 renders Current Values whatever
the directions are. -/
theorem scheduler_override (s : SysState) :
    (s.display_step = 0 → (s.temp_exceeded_dir = 1 ∨ s.temp_exceeded_dir = -1) →
      tickRender s = some (RenderCall.warningCall 0 s.temp_exceeded_dir)) ∧
    (s.display_step = 1 → (s.hum_exceeded_dir = 1 ∨ s.hum_exceeded_dir = -1) →
      tickRender s = some (RenderCall.warningCall 1 s.hum_exceeded_dir)) ∧
    (s.temp_exceeded_dir = 0 → s.hum_exceeded_dir = 0 →
      (s.display_step = 0 ∨ s.display_step = 1) →
      tickRender s = some (RenderCall.currentCall s.temperature s.humidity)) ∧
    (s.display_step = 2 →
      tickRender s = some (RenderCall.currentCall s.temperature s.humidity)) := by
  refine ⟨?_, ?_, ?_, ?_⟩
  · intro h0 hd
    simp [tickRender, h0, hd]
  · intro h1 hd
    rcases hd with hd | hd <;> simp [tickRender, h1, hd]
  · intro ht hh hstep
    rcases hstep with h | h <;> simp [tickRender, h, ht, hh]
  · intro h2
    simp [tickRender, h2]

/-- Witness for C8: concrete states exercising all four branches. -/
theorem scheduler_override_witness :
    tickRender { initState with temp_exceeded_dir := 1 } =
      some (RenderCall.warningCall 0 1) ∧
    tickRender { initState with display_step := 1, hum_exceeded_dir := -1 } =
      some (RenderCall.warningCall 1 (-1)) ∧
    tickRender initState = some (RenderCall.currentCall 0 0) ∧
    tickRender { initState with display_step := 2, temp_exceeded_dir := 1,
                                hum_exceeded_dir := -1 } =
      some (RenderCall.currentCall 0 0) := by
  refine ⟨?_, ?_, ?_, ?_⟩
  · exact (scheduler_override _).1 rfl (Or.inl rfl)
  · exact (scheduler_override _).2.1 rfl (Or.inr rfl)
  · exact (scheduler_override _).2.2.1 rfl rfl (Or.inl rfl)
  · exact (scheduler_override _).2.2.2 rfl

/-- Claim C9: a sample the validator rejects changes nothing at all:
`checkStats` returns the state unchanged, so the extremes, both
directions, the AnimationSelector and the validator memory (last
accepted pair and bootstrap count) are all untouched. -/
theorem rejected_sample_inert (L : Limits) (t h : Int) (s : SysState)
    (hv : (isNewResultValid s).fst = false) :
    checkStats L t h s = s :=
  checkStats_of_invalid L t h s hv

/-- Witness for C9: a temperature jump of 10 from the last accepted 0 is
rejected and the state is returned verbatim. -/
theorem rejected_sample_inert_witness :
    (isNewResultValid { initState with test_frequency := 1, temperature := 10 }).fst
      = false ∧
    checkStats userLimits 10 0 { initState with test_frequency := 1, temperature := 10 }
      = { initState with test_frequency := 1, temperature := 10 } :=
  ⟨by decide, rejected_sample_inert userLimits 10 0 _ (by decide)⟩

/-- Claim C10: in every reachable configuration both direction variables
lie in `{-1, 0, 1}`, and whenever the tick handler calls `printWarning`
the `exceeded_dir` argument is `1` or `-1`, so the `printWarning` branch
that prints the limit string buffer no `sprintf` ever wrote is
unreachable. -/
theorem directions_in_range_warning_guarded (L : Limits) (m : Mode) (s : SysState)
    (hr : ReachableM L (m, s)) :
    (s.temp_exceeded_dir = -1 ∨ s.temp_exceeded_dir = 0 ∨ s.temp_exceeded_dir = 1) ∧
    (s.hum_exceeded_dir = -1 ∨ s.hum_exceeded_dir = 0 ∨ s.hum_exceeded_dir = 1) ∧
    (∀ a d, tickRender s = some (RenderCall.warningCall a d) →
      (d = 1 ∨ d = -1) ∧ (printWarning L a d).isUninit = false) := by
  obtain ⟨h1, h2, -⟩ := reachable_dir_anim L (m, s) hr
  refine ⟨h1, h2, ?_⟩
  intro a d hw
  rcases tickRender_warning_inv s a d hw with ⟨-, -, hd⟩ | ⟨-, -, hd⟩ <;>
    exact ⟨hd, printWarning_not_unset L a d hd⟩

/-- Witness for C10: after the reachable step that accepts the
over-limit sample `(35, 25)`, the tick handler issues
`printWarning(0, 1)`, whose direction is in range and whose output is
not the unset-buffer branch. -/
theorem directions_in_range_warning_guarded_witness :
    ((foregroundStep userLimits (initStateOf userLimits)
        (SensorResult.ok 35 25)).fst.temp_exceeded_dir = -1 ∨
     (foregroundStep userLimits (initStateOf userLimits)
        (SensorResult.ok 35 25)).fst.temp_exceeded_dir = 0 ∨
     (foregroundStep userLimits (initStateOf userLimits)
        (SensorResult.ok 35 25)).fst.temp_exceeded_dir = 1) ∧
    (((1 : Int) = 1 ∨ (1 : Int) = -1) ∧
      (printWarning userLimits 0 1).isUninit = false) := by
  have hr : ReachableM userLimits (Mode.running,
      (foregroundStep userLimits (initStateOf userLimits)
        (SensorResult.ok 35 25)).fst) := by
    refine ReachableM.step (initMode userLimits, initStateOf userLimits)
      (Label.sensorRead (SensorResult.ok 35 25)) _ ReachableM.init ?_
    decide
  obtain ⟨h1, h2, h3⟩ := directions_in_range_warning_guarded userLimits Mode.running
    _ hr
  exact ⟨h1, h3 0 1 (by decide)⟩

end TempHumAlarm
